import Mathlib

/-!
Verification of the Ethergems/next-gen depth-engraving toolpath engine.

This file gives a shallow embedding in Lean 4 of the algorithmic core of the
repository — `DeepEngravingService`, `LaserEngravingService`,
`LaserProfileService`, `ProfileManagerService` and `DepthMapService` — and
proves (or refutes) the specification's claims about it.

Numbers: the TypeScript sources compute with JS doubles.  We embed the purely
rational arithmetic (ramps, counts, clamps, lookups) over `ℚ`, and the parts
that use `Math.pow` with a fractional exponent or `Math.log`
(`DepthMapService`, `calculatePowerForGrayscale`) over `ℝ` with `Real.rpow` /
`Real.log`.  Buffers (`Float32Array`, `number[][]`) are embedded as lists or
as index functions `ℕ → ℝ`, matching the flat `y * width + x` indexing of the
source.
-/

namespace Engrave

/-! ### Data model: DeepEngravingService (src/src/services/DeepEngravingService.ts) -/

/-- `powerRamp` field of `DeepEngravingSettings` (lines 8–12). -/
structure PowerRamp where
  initial : ℚ
  increment : ℚ
  max : ℚ
deriving DecidableEq

/-- `speedProfile` field of `DeepEngravingSettings` (lines 13–17). -/
structure SpeedProfile where
  initial : ℚ
  reduction : ℚ
  min : ℚ
deriving DecidableEq

/-- `beamProfile` field of `DeepEngravingSettings` (lines 18–22). -/
structure BeamProfile where
  focusOffset : ℚ
  beamOverlap : ℚ
  crosshatchAngle : ℚ
deriving DecidableEq

/-- `DeepEngravingSettings` (lines 5–29).  `passLayers` is used only as a loop
bound and (coerced) in the per-layer arithmetic, so it is carried as `ℕ`.
The `visualEffects` field only drives the THREE.js preview and is omitted. -/
structure DeepEngravingSettings where
  maxDepth : ℚ
  passLayers : ℕ
  powerRamp : PowerRamp
  speedProfile : SpeedProfile
  beamProfile : BeamProfile
deriving DecidableEq

/-- A motion point `{x, y, z, power}`. -/
structure PathPoint where
  x : ℚ
  y : ℚ
  z : ℚ
  power : ℚ
deriving DecidableEq

/-- One produced pass (the object pushed at lines 93–99). -/
structure Pass where
  paths : List PathPoint
  depth : ℚ
  power : ℚ
  speed : ℚ
  focusOffset : ℚ
deriving DecidableEq

/-- A raster image: width, height and the flat RGBA byte buffer
(`ImageData`), embedded as an index function. -/
structure RasterImage where
  width : ℕ
  height : ℕ
  data : ℕ → ℚ

/-- `DeepEngravingService.generateLayerPaths` (lines 120–130): the body
creates an empty array and returns it. -/
def generateLayerPaths : List PathPoint := []

/-- `DeepEngravingService.generateCrosshatchPaths` (lines 132–142): the body
creates an empty array and returns it. -/
def generateCrosshatchPaths : List PathPoint := []

/-- `DeepEngravingService.calculateFocusOffset` (lines 144–147):
`depth * settings.beamProfile.focusOffset`. -/
def calculateFocusOffset (depth : ℚ) (settings : DeepEngravingSettings) : ℚ :=
  depth * settings.beamProfile.focusOffset

/-- `DeepEngravingService.calculateTotalTime` (lines 149–154): the body
initializes `totalTime = 0` and returns it. -/
def calculateTotalTime (_passes : List Pass) : ℚ := 0

/-- The body of the pass loop of `generateDeepEngraving` (lines 60–100) for
0-based `layer`: depth `(layer+1) * (maxDepth / passLayers)`, power
`min (initial + increment*layer) max`, speed
`max (initial * reduction^layer) min`, with crosshatch paths appended when
`layer > passLayers / 2`. -/
def makePass (settings : DeepEngravingSettings) (layer : ℕ) : Pass :=
  let currentDepth : ℚ := (layer + 1) * (settings.maxDepth / settings.passLayers)
  let layerPower : ℚ :=
    min (settings.powerRamp.initial + settings.powerRamp.increment * layer)
      settings.powerRamp.max
  let speedReduction : ℚ := settings.speedProfile.reduction ^ layer
  let currentSpeed : ℚ :=
    max (settings.speedProfile.initial * speedReduction) settings.speedProfile.min
  let layerPaths :=
    if (layer : ℚ) > (settings.passLayers : ℚ) / 2 then
      generateLayerPaths ++ generateCrosshatchPaths
    else generateLayerPaths
  { paths := layerPaths
    depth := currentDepth
    power := layerPower
    speed := currentSpeed
    focusOffset := calculateFocusOffset currentDepth settings }

/-- Result record of `generateDeepEngraving` (lines 43–54); the THREE.js
`visualPreview` is omitted. -/
structure EngravingResult where
  passes : List Pass
  totalTime : ℚ
  maxDepth : ℚ

/-- `DeepEngravingService.generateDeepEngraving` (lines 40–111).  The private
depth-map helper returns an empty buffer and the path generators return empty
arrays in the source, so the image argument only flows into those stubs; the
pass metadata is exactly the loop arithmetic of lines 60–100. -/
def generateDeepEngraving (_image : RasterImage) (settings : DeepEngravingSettings) :
    EngravingResult :=
  let passes := (List.range settings.passLayers).map (makePass settings)
  { passes := passes
    totalTime := calculateTotalTime passes
    maxDepth := settings.maxDepth }

/-! ### Data model: LaserProfileService (src/src/services/LaserProfileService.ts) -/

/-- Laser type tag (`fiber | co2 | diode`). -/
inductive LaserType where
  | fiber | co2 | diode
deriving DecidableEq

/-- `assistGas` option (lines 17–20). -/
structure AssistGas where
  type : String
  pressure : ℚ
deriving DecidableEq

/-- `mopaSettings` option (lines 21–25). -/
structure MopaSettings where
  pulseShapes : List String
  burstMode : Bool
  burstSpacing : ℚ
deriving DecidableEq

/-- `settings` field of `LaserProfile` (lines 12–26). -/
structure LaserSettings where
  powerCurve : List ℚ
  speedCurve : List ℚ
  pulseFrequency : ℚ
  pulseWidth : ℚ
  assistGas : Option AssistGas
  mopaSettings : Option MopaSettings
deriving DecidableEq

/-- `LaserProfile` (lines 3–27). -/
structure LaserProfile where
  name : String
  type : LaserType
  power : ℚ
  wavelength : ℚ
  minPower : ℚ
  maxPower : ℚ
  focusHeight : ℚ
  beamDiameter : ℚ
  settings : LaserSettings
deriving DecidableEq

/-- The identity 256-entry power lookup curve used by every default profile:
`Array.from({length: 256}, (_, i) => i / 255)`. -/
def defaultPowerCurve : List ℚ :=
  (List.range 256).map (fun (i : ℕ) => (i : ℚ) / 255)

/-- The quadratic 256-entry speed lookup curve used by every default profile:
`Array.from({length: 256}, (_, i) => Math.pow(i / 255, 2))`. -/
def defaultSpeedCurve : List ℚ :=
  (List.range 256).map (fun (i : ℕ) => ((i : ℚ) / 255) ^ 2)

/-- First entry of `defaultProfiles` (lines 46–65): the `"Seamann 50W Fiber"`
profile, with `minPower = 1` and `maxPower = 50`. -/
def seamann50WFiber : LaserProfile :=
  { name := "Seamann 50W Fiber"
    type := .fiber
    power := 50
    wavelength := 1064
    minPower := 1
    maxPower := 50
    focusHeight := 12/100
    beamDiameter := 5/100
    settings :=
      { powerCurve := defaultPowerCurve
        speedCurve := defaultSpeedCurve
        pulseFrequency := 20000
        pulseWidth := 5/100
        assistGas := some ⟨"nitrogen", 8⟩
        mopaSettings := none } }

/-! ### Concrete inputs for the specified scenarios -/

/-- A 4×4 uniform white RGBA image. -/
def whiteImage4 : RasterImage := ⟨4, 4, fun _ => 255⟩

/-- The settings of the spec's scenario: `maxDepth = 2.0`, `passLayers = 4`,
`powerRamp = {initial: 40, increment: 3, max: 95}` (speed and beam values are
not pinned by the scenario). -/
def scenarioSettings : DeepEngravingSettings :=
  { maxDepth := 2
    passLayers := 4
    powerRamp := ⟨40, 3, 95⟩
    speedProfile := ⟨100, 1/2, 10⟩
    beamProfile := ⟨1/10, 0, 45⟩ }

/-- Settings whose initial power (80%) exceeds the Seamann 50 W profile's
rated `maxPower` while staying below the ramp ceiling of 95. -/
def hotSettings : DeepEngravingSettings :=
  { maxDepth := 2
    passLayers := 4
    powerRamp := ⟨80, 3, 95⟩
    speedProfile := ⟨100, 1/2, 10⟩
    beamProfile := ⟨1/10, 0, 45⟩ }

/-! ### Data model: LaserEngravingService (src/src/services/LaserEngravingService.ts) -/

/-- Toolpath strategy tag (line 22). -/
inductive Strategy where
  | contour | spiral | hybrid | adaptive
deriving DecidableEq

/-- Scan direction tag (line 23). -/
inductive Direction where
  | bidirectional | unidirectional
deriving DecidableEq

/-- Optimization level tag (line 29). -/
inductive OptimizationLevel where
  | speed | quality | balanced
deriving DecidableEq

/-- `ToolpathSettings` (lines 21–34). -/
structure ToolpathSettings where
  strategy : Strategy
  direction : Direction
  lineSpacing : ℚ
  angle : ℚ
  stepover : ℚ
  toolCompensation : ℚ
  smoothingFactor : ℚ
  optimizationLevel : OptimizationLevel
  crosshatch : Bool
  crosshatchAngle : ℚ
  depthPerPass : ℚ
  maxPasses : ℚ
deriving DecidableEq

/-- One entry of the toolpath list returned by `generateOptimizedToolpaths`
(lines 117–126). -/
structure Toolpath where
  path : List PathPoint
  pass : ℕ
  depth : ℚ
deriving DecidableEq

/-- `Math.max(...heightmap.flat())` (line 128, before the `maxPasses`
factor).  JS yields `-Infinity` on an empty spread, which has no rational
counterpart; the embedding returns 0 there, and no claim exercises an empty
heightmap. -/
def flatMax (heightmap : List (List ℚ)) : ℚ :=
  match heightmap.flatten with
  | [] => 0
  | h :: t => t.foldl max h

/-- `LaserEngravingService.generateContourPath` (lines 173–180): returns an
empty array. -/
def generateContourPath (_heightmap : List (List ℚ)) (_depth : ℚ)
    (_settings : ToolpathSettings) : List PathPoint := []

/-- `LaserEngravingService.generateSpiralPath` (lines 182–189): returns an
empty array. -/
def generateSpiralPath (_heightmap : List (List ℚ)) (_depth : ℚ)
    (_settings : ToolpathSettings) : List PathPoint := []

/-- `LaserEngravingService.generateHybridPath` (lines 191–198): returns an
empty array. -/
def generateHybridPath (_heightmap : List (List ℚ)) (_depth : ℚ)
    (_settings : ToolpathSettings) : List PathPoint := []

/-- `LaserEngravingService.generateAdaptivePath` (lines 200–207): returns an
empty array. -/
def generateAdaptivePath (_heightmap : List (List ℚ)) (_depth : ℚ)
    (_settings : ToolpathSettings) : List PathPoint := []

/-- `LaserEngravingService.optimizePath` (lines 209–215): returns its input
path unchanged. -/
def optimizePath (path : List PathPoint) (_settings : ToolpathSettings) :
    List PathPoint := path

/-- `LaserEngravingService.generateCrosshatchPath` (lines 217–224): returns
an empty array. -/
def generateCrosshatchPath (_heightmap : List (List ℚ)) (_depth : ℚ)
    (_settings : ToolpathSettings) : List PathPoint := []

/-- `LaserEngravingService.mergePaths` (lines 226–232): concatenation
`[...path1, ...path2]`. -/
def mergePaths (path1 path2 : List PathPoint) : List PathPoint := path1 ++ path2

/-- Body of the pass loop of `generateOptimizedToolpaths` (lines 131–168)
for 0-based `pass`. -/
def makeToolpath (heightmap : List (List ℚ)) (settings : ToolpathSettings)
    (pass : ℕ) : Toolpath :=
  let currentDepth : ℚ := (pass + 1) * settings.depthPerPass
  let path :=
    match settings.strategy with
    | .contour => generateContourPath heightmap currentDepth settings
    | .spiral => generateSpiralPath heightmap currentDepth settings
    | .hybrid => generateHybridPath heightmap currentDepth settings
    | .adaptive => generateAdaptivePath heightmap currentDepth settings
  let path := optimizePath path settings
  let path :=
    if settings.crosshatch then
      mergePaths path (generateCrosshatchPath heightmap currentDepth settings)
    else path
  { path := path, pass := pass + 1, depth := currentDepth }

/-- `LaserEngravingService.generateOptimizedToolpaths` (lines 114–171):
`totalDepth = Math.max(...heightmap.flat()) * settings.maxPasses`,
`passCount = Math.ceil(totalDepth / settings.depthPerPass)`, then one
toolpath per pass index.  Note: `passCount` is *not* capped by
`settings.maxPasses`. -/
def generateOptimizedToolpaths (heightmap : List (List ℚ))
    (settings : ToolpathSettings) : List Toolpath :=
  let totalDepth := flatMax heightmap * settings.maxPasses
  let passCount := (⌈totalDepth / settings.depthPerPass⌉).toNat
  (List.range passCount).map (makeToolpath heightmap settings)

/-- `options` argument of `generatePowerMap` (LaserProfileService lines
250–257).  `passes` is a loop-bound count and is carried as `ℕ`. -/
structure PowerMapOptions where
  maxDepth : ℚ
  passes : ℕ
  baseSpeed : ℚ
  depthPerPass : ℚ
  powerAdjustment : ℚ
deriving DecidableEq

/-- One entry of the list returned by `generatePowerMap` (lines 258–263). -/
structure PowerMapPass where
  passNumber : ℕ
  powerMap : List (List ℚ)
  speed : ℚ
  zOffset : ℚ
deriving DecidableEq

/-- `LaserProfileService.generatePowerMap` (lines 248–306):
`maxPasses = Math.ceil(options.maxDepth / options.depthPerPass)`,
`actualPasses = Math.min(maxPasses, options.passes)`; per pass, each
heightmap cell contributes `min 1 ((requiredDepth - (targetDepth -
depthPerPass)) / depthPerPass) * profile.maxPower * powerAdjustment` when
`requiredDepth > targetDepth - depthPerPass`, else 0; speed decays as
`baseSpeed * 0.9^pass` and `zOffset = -targetDepth`. -/
def generatePowerMap (heightmap : List (List ℚ)) (profile : LaserProfile)
    (options : PowerMapOptions) : List PowerMapPass :=
  let maxPassesCount := (⌈options.maxDepth / options.depthPerPass⌉).toNat
  let actualPasses := min maxPassesCount options.passes
  (List.range actualPasses).map (fun (pass : ℕ) =>
    let targetDepth := ((pass : ℚ) + 1) * options.depthPerPass
    let powerMap := heightmap.map (fun row =>
      row.map (fun heightValue =>
        let requiredDepth := heightValue * options.maxDepth
        if requiredDepth > targetDepth - options.depthPerPass then
          min 1 ((requiredDepth - (targetDepth - options.depthPerPass))
              / options.depthPerPass)
            * profile.maxPower * options.powerAdjustment
        else 0))
    { passNumber := pass + 1
      powerMap := powerMap
      speed := options.baseSpeed * (9/10 : ℚ) ^ pass
      zOffset := -targetDepth })

/-! ### Data model: focal adjustment (LaserProfileService lines 326–336) -/

/-- The `material` argument of `calculateFocalAdjustment`. -/
structure Material where
  refractiveIndex : ℚ
  thickness : ℚ
deriving DecidableEq

/-- `LaserProfileService.calculateFocalAdjustment` (lines 326–336):
`depth * (1 - 1 / material.refractiveIndex)`, with no validation of
`refractiveIndex`. -/
def calculateFocalAdjustment (depth : ℚ) (material : Material) : ℚ :=
  depth * (1 - 1 / material.refractiveIndex)

/-- The spec's error kinds (§7). -/
inductive EngraveError where
  | invalidInput | invalidSettings | profileNotFound | invalidMaterial | cancelled
deriving DecidableEq

/-- Follows the spec's words (§4.2): `focusOffsetFor(depth, material)`
returns `depth × (1 - 1/refractiveIndex)` and fails with `InvalidMaterial`
when `refractiveIndex ≤ 0`.  Stated for comparison with the source's
`calculateFocalAdjustment`. -/
def specFocusOffsetFor (depth : ℚ) (material : Material) :
    Except EngraveError ℚ :=
  if material.refractiveIndex ≤ 0 then .error .invalidMaterial
  else .ok (depth * (1 - 1 / material.refractiveIndex))

/-! ### Data model: profile registries (src/src/services/ProfileManagerService.ts)

The registries are JS `Map`s.  `Map.get`/`Map.set` are embedded as
association-list lookup and in-place update (`set` overwrites the value at
an existing key, else appends). -/

/-- JS `Map.prototype.set`: overwrite the entry at `k` if present (keeping
its position), else append `(k, v)`. -/
def mapSet {κ α : Type} [BEq κ] (m : List (κ × α)) (k : κ) (v : α) :
    List (κ × α) :=
  match m with
  | [] => [(k, v)]
  | (k', v') :: t => if k' == k then (k, v) :: t else (k', v') :: mapSet t k v

/-- JS `Map.prototype.get`: first value stored at `k`, or `undefined`. -/
def mapGet {κ α : Type} [BEq κ] (m : List (κ × α)) (k : κ) : Option α :=
  match m with
  | [] => none
  | (k', v') :: t => if k' == k then some v' else mapGet t k

/-- `MaterialProfile` (LaserProfileService lines 29–43); the nested
`settings` record is kept as its four numeric fields plus optional gas. -/
structure MaterialProfile where
  name : String
  type : String
  thickness : ℚ
  power : ℚ
  speed : ℚ
  passes : ℚ
  zOffset : ℚ
  assistGas : Option AssistGas
deriving DecidableEq

/-- `ProfileManagerService.addLaserProfile` (lines 173–175):
`this.laserProfiles.set(profile.name, profile)`. -/
def addLaserProfile (profile : LaserProfile)
    (laserProfiles : List (String × LaserProfile)) :
    List (String × LaserProfile) :=
  mapSet laserProfiles profile.name profile

/-- `ProfileManagerService.getLaserProfile` (lines 186–188) and
`LaserProfileService.getProfile` (lines 188–190):
`this.laserProfiles.get(name)` / `this.profiles.get(name)`. -/
def getLaserProfile (name : String)
    (laserProfiles : List (String × LaserProfile)) : Option LaserProfile :=
  mapGet laserProfiles name

/-- `ProfileManagerService.addMaterialProfile` (lines 177–180): append the
profile to the list stored under `profile.type` (empty list when absent). -/
def addMaterialProfile (profile : MaterialProfile)
    (materialProfiles : List (String × List MaterialProfile)) :
    List (String × List MaterialProfile) :=
  mapSet materialProfiles profile.type
    ((mapGet materialProfiles profile.type).getD [] ++ [profile])

/-- `ProfileManagerService.getMaterialProfiles` (lines 190–192):
`this.materialProfiles.get(type) || []`. -/
def getMaterialProfiles (type : String)
    (materialProfiles : List (String × List MaterialProfile)) :
    List MaterialProfile :=
  (mapGet materialProfiles type).getD []

/-! ### Data model: the untyped import path (`importProfile`, lines 128–143)

`importProfile` feeds `JSON.parse` output — untyped JS values — directly
into the `add*Profile` methods, so this path is embedded at the JSON level:
the registries store parsed JSON objects keyed by whatever
`profile.name` / `profile.type` evaluates to (possibly `undefined`,
embedded as `none`). -/

/-- A parsed JSON value. -/
inductive Json where
  | null
  | bool (b : Bool)
  | num (q : ℚ)
  | str (s : String)
  | arr (elems : List Json)
  | obj (fields : List (String × Json))
deriving BEq

/-- JS property access `v[k]` on a parsed JSON value: accessing a property
of `null` throws (`none` outcome); objects yield the field value or
`undefined`; every other primitive yields `undefined`. -/
def propAccess (v : Json) (k : String) : Option (Option Json) :=
  match v with
  | .null => none
  | .obj fields => some (mapGet fields k)
  | _ => some none

/-- JS strict comparison of a possibly-undefined property value with a
string literal tag: true exactly when the value is that string. -/
def isTypeTag (t : Option Json) (tag : String) : Bool :=
  match t with
  | some (.str s) => s == tag
  | _ => false

/-- The three registries of `ProfileManagerService` as seen by the
untyped JSON-level path above (lines 22–24). -/
structure Registries where
  printerProfiles : List (Option Json × Json)
  laserProfiles : List (Option Json × Json)
  materialProfiles : List (Option Json × List Json)

/-- `addPrinterProfile`/`addLaserProfile` as invoked by `importProfile` with
an unvalidated `data.profile`: `.set(profile.name, profile)`.  Accessing
`.name` of `undefined` or `null` throws (`none` outcome). -/
def addProfileDyn (profile : Option Json) (m : List (Option Json × Json)) :
    Option (List (Option Json × Json)) :=
  match profile with
  | none => none
  | some p => (propAccess p "name").map (fun nameVal => mapSet m nameVal p)

/-- `addMaterialProfile` as invoked by `importProfile`: append under
`profile.type`. -/
def addMaterialProfileDyn (profile : Option Json)
    (m : List (Option Json × List Json)) :
    Option (List (Option Json × List Json)) :=
  match profile with
  | none => none
  | some p =>
    (propAccess p "type").map (fun typeVal =>
      mapSet m typeVal ((mapGet m typeVal).getD [] ++ [p]))

/-- `ProfileManagerService.importProfile` (lines 128–143).  `parsed` is the
outcome of `JSON.parse(profileData)` (`none` when parsing threw).  Any
exception inside the `try` block is caught and yields `(false, s)` with the
registries untouched; otherwise the matching branch runs and the method
returns `true`. -/
def importProfile (parsed : Option Json) (s : Registries) :
    Bool × Registries :=
  match parsed with
  | none => (false, s)
  | some data =>
    match propAccess data "type", propAccess data "profile" with
    | some t, some prof =>
      if isTypeTag t "printer" then
        match addProfileDyn prof s.printerProfiles with
        | some m => (true, { s with printerProfiles := m })
        | none => (false, s)
      else if isTypeTag t "laser" then
        match addProfileDyn prof s.laserProfiles with
        | some m => (true, { s with laserProfiles := m })
        | none => (false, s)
      else if isTypeTag t "material" then
        match addMaterialProfileDyn prof s.materialProfiles with
        | some m => (true, { s with materialProfiles := m })
        | none => (false, s)
      else (true, s)
    | _, _ => (false, s)

/-- The registry state with nothing imported. -/
def emptyRegistries : Registries := ⟨[], [], []⟩

/-- A 1×1 heightmap whose single cell requires the full depth. -/
def heightmapOne : List (List ℚ) := [[1]]

/-- Toolpath settings with `depthPerPass = 0.5` and `maxPasses = 4`:
`generateOptimizedToolpaths` then plans `ceil(1 * 4 / 0.5) = 8` passes. -/
def toolpathSettings5 : ToolpathSettings :=
  { strategy := .contour
    direction := .bidirectional
    lineSpacing := 1
    angle := 0
    stepover := 1
    toolCompensation := 0
    smoothingFactor := 0
    optimizationLevel := .balanced
    crosshatch := false
    crosshatchAngle := 90
    depthPerPass := 1/2
    maxPasses := 4 }

/-! ### Data model: DepthMapService (src/unnamed/part_004)

This service computes with `Math.pow(·, 1/gamma)` and `Math.log`, so it is
embedded over `ℝ` with `Real.rpow` and `Real.log`.  `Float32Array` buffers
are embedded as index functions `ℕ → ℝ` with the source's flat
`y * width + x` indexing. -/

/-- Depth-curve selector of `DepthMapSettings` (part_004 line 15). -/
inductive DepthCurve where
  | linear | exponential | logarithmic | custom
deriving DecidableEq

/-- `DepthMapSettings` of `DepthMapService` (part_004 lines 4–37). -/
structure DepthMapSettings where
  contrast : ℝ
  brightness : ℝ
  gamma : ℝ
  sharpness : ℝ
  baseDepth : ℝ
  maxDepth : ℝ
  minDepth : ℝ
  depthCurve : DepthCurve
  customCurve : Option (List ℝ)
  layers : ℕ
  layerBlending : ℝ
  layerContrast : List ℝ
  detailBoost : ℝ
  microDetail : ℝ
  edgeEnhancement : ℝ
  smoothing : ℝ
  adaptiveSmoothing : Bool
  preserveEdges : Bool
  normalStrength : ℝ
  aoStrength : ℝ
  heightBlending : ℝ

/-- The `while (i < curve.length && curve[i] < value) i++` scan of
`interpolateCustomCurve` (part_004 lines 203–204): the number of leading
control points strictly below `value`. -/
noncomputable def curveScanIdx (value : ℝ) : List ℝ → ℕ
  | [] => 0
  | c :: t => if c < value then curveScanIdx value t + 1 else 0

/-- `DepthMapService.interpolateCustomCurve` (part_004 lines 201–212):
scan to the first control point not below `value`; return the first control
point when the scan stops at 0, the last when it runs off the end, else
linearly interpolate between the two surrounding control points.  (JS reads
`curve[0]` of an empty curve as `undefined`; the embedding returns the
list-default 0 there, a case no claim exercises.) -/
noncomputable def interpolateCustomCurve (value : ℝ) (curve : List ℝ) : ℝ :=
  let i := curveScanIdx value curve
  if i = 0 then curve.getD 0 0
  else if i = curve.length then curve.getD (curve.length - 1) 0
  else
    let c1 := curve.getD (i - 1) 0
    let c2 := curve.getD i 0
    c1 + (value - c1) / (c2 - c1) * (c2 - c1)

/-- `DepthMapService.applyDepthCurve` (part_004 lines 186–199): note the
`custom` branch falls back to the input value when `customCurve` is unset. -/
noncomputable def applyDepthCurve (value : ℝ) (s : DepthMapSettings) : ℝ :=
  match s.depthCurve with
  | .exponential => value ^ 2
  | .logarithmic => Real.log (value * (Real.exp 1 - 1) + 1)
  | .custom =>
    match s.customCurve with
    | some curve => interpolateCustomCurve value curve
    | none => value
  | .linear => value

/-- Follows the spec's words (§4.1 contract and the §8 scenario), for
comparison with the source's `applyDepthCurve`: when `depthCurve = custom`
and `customCurve` is unset the computation must fail with `InvalidInput`
rather than fall back to the linear (identity) curve. -/
noncomputable def specApplyDepthCurve (value : ℝ) (s : DepthMapSettings) :
    Except EngraveError ℝ :=
  match s.depthCurve, s.customCurve with
  | .custom, none => .error .invalidInput
  | _, _ => .ok (applyDepthCurve value s)

/-- `DepthMapService.applyContrastBrightness` (part_004 lines 297–310):
`0.5 + (value - 0.5) * (1 + contrast/100)`, plus `brightness/100`, clamped
to `[0, 1]`. -/
noncomputable def applyContrastBrightness (value contrast brightness : ℝ) : ℝ :=
  max 0 (min 1 (0.5 + (value - 0.5) * (1 + contrast / 100) + brightness / 100))

/-- `DepthMapService.convertToEnhancedGrayscale` (part_004 lines 90–117):
luminance `0.299 r + 0.587 g + 0.114 b` of the normalized channels, raised
to `1/gamma` (`Real.rpow`), then contrast/brightness with clamping. -/
noncomputable def convertToEnhancedGrayscale (image : RasterImage)
    (s : DepthMapSettings) : ℕ → ℝ := fun i =>
  let r := (image.data (i * 4) : ℝ) / 255
  let g := (image.data (i * 4 + 1) : ℝ) / 255
  let b := (image.data (i * 4 + 2) : ℝ) / 255
  applyContrastBrightness ((0.299 * r + 0.587 * g + 0.114 * b) ^ (1 / s.gamma))
    s.contrast s.brightness

/-- `DepthMapService.enhanceLocalContrast` (part_004 lines 214–226): the
S-curve `0.5 + (value - 0.5) * (1 + contrast/100)` followed by the two
sequential clamping `if`s of the source. -/
noncomputable def enhanceLocalContrast (value : ℝ) (s : DepthMapSettings) : ℝ :=
  let v := 0.5 + (value - 0.5) * (1 + s.contrast / 100)
  let v1 := if v < 0 then 0 else v
  if v1 > 1 then 1 else v1

/-- `DepthMapService.processPixelAtScale` (part_004 lines 152–184): box
average of the `scale × scale` window (samples outside the image bounds are
skipped), then the depth curve, then the local contrast clamp.  The pair
`p = (dy, dx)` ranges over the two nested loops. -/
noncomputable def processPixelAtScale (grayscale : ℕ → ℝ)
    (x y scale width height : ℕ) (s : DepthMapSettings) : ℝ :=
  let window := (Finset.range scale ×ˢ Finset.range scale).filter
    (fun p => x * scale + p.2 < width ∧ y * scale + p.1 < height)
  let sum := ∑ p in window,
    grayscale ((y * scale + p.1) * width + (x * scale + p.2))
  let count := (window.card : ℝ)
  enhanceLocalContrast (applyDepthCurve (sum / count) s) s

/-- `DepthMapService.gaussianBlur` (part_004 lines 251–260): the method
body contains no statements, so the output buffer is returned exactly as
the caller initialized it. -/
noncomputable def gaussianBlur (_input : ℕ → ℝ) (output : ℕ → ℝ)
    (_width _height : ℕ) (_sigma : ℝ) : ℕ → ℝ := output

/-- `DepthMapService.enhanceDetails` (part_004 lines 228–249): unsharp
masking `data[i] += (data[i] - blurred[i]) * detailBoost/100`, with the
blur buffer `temp` freshly zero-initialized (`new Float32Array`) and left
untouched by the empty-bodied `gaussianBlur`.  No clamping is applied. -/
noncomputable def enhanceDetails (data : ℕ → ℝ) (width height : ℕ)
    (s : DepthMapSettings) : ℕ → ℝ :=
  let radius : ℝ := max 1 ((⌊(width : ℝ) * 0.02⌋ : ℤ) : ℝ)
  let sigma := radius / 3
  let amount := s.detailBoost / 100
  let temp := gaussianBlur data (fun _ => 0) width height sigma
  fun i => data i + (data i - temp i) * amount

/-- `DepthMapService.processAtScale` (part_004 lines 119–150): the
`floor(width/scale) × floor(height/scale)` downsampled buffer of
`processPixelAtScale` values (flat index `i ↦ (x, y) = (i mod w', i / w')`),
then `enhanceDetails` over it. -/
noncomputable def processAtScale (grayscale : ℕ → ℝ) (width height scale : ℕ)
    (s : DepthMapSettings) : ℕ → ℝ :=
  let scaledWidth := width / scale
  let scaledHeight := height / scale
  let processed := fun i =>
    processPixelAtScale grayscale (i % scaledWidth) (i / scaledWidth)
      scale width height s
  enhanceDetails processed scaledWidth scaledHeight s

/-- The fixed scale pyramid `[1, 2, 4, 8]` (part_004 line 70). -/
def scalesList : List ℕ := [1, 2, 4, 8]

/-- Modelled from the spec: `blendProcessedScales` is invoked at part_004
line 76 but no method of that name exists in the class, so its body is
missing from the sources.  Spec §4.1 step 4 specifies that the scale
buffers are upsampled to full resolution and blended.  The model takes the
pointwise arithmetic mean of the nearest-neighbour-upsampled (clamped
index) buffers of every scale whose downsampled grid is nonempty; the
`layerBlending` weighting and the edge-preservation bias are not given a
formula by the spec, and any convex weighting behaves identically for the
bound claims proved here. -/
noncomputable def blendProcessedScales (buffers : List (ℕ × (ℕ → ℝ)))
    (width height : ℕ) : ℕ → ℝ := fun i =>
  let x := i % width
  let y := i / width
  let included := buffers.filter
    (fun b => 0 < width / b.1 && 0 < height / b.1)
  (included.map (fun b =>
      b.2 (min (y / b.1) (height / b.1 - 1) * (width / b.1)
        + min (x / b.1) (width / b.1 - 1)))).sum
    / (included.length : ℝ)

/-- `DepthMapService.generateHeightMap` (part_004 lines 273–283): like
`gaussianBlur`, the method body contains no statements, so the
zero-initialized `Float32Array` height buffer of the caller (part_004 line
64) is left untouched — the produced height map is identically zero. -/
noncomputable def generateHeightMap (_depthMap : ℕ → ℝ)
    (_s : DepthMapSettings) : ℕ → ℝ := fun _ => 0

/-- Depth and height buffers returned by `generateEnhancedDepthMap`; the
normal map and the THREE.js preview texture are omitted
(`generateNormalMap` is another statement-free stub and no claim concerns
either output). -/
structure DepthMapResult where
  depthMap : ℕ → ℝ
  heightMap : ℕ → ℝ

/-- `DepthMapService.generateEnhancedDepthMap` (part_004 lines 49–88):
grayscale conversion, the four-scale pyramid of `processAtScale`, the
scale blend, and the height map. -/
noncomputable def generateEnhancedDepthMap (image : RasterImage)
    (s : DepthMapSettings) : DepthMapResult :=
  let grayscale := convertToEnhancedGrayscale image s
  let processedScales := scalesList.map
    (fun sc => (sc, processAtScale grayscale image.width image.height sc s))
  let depthMap := blendProcessedScales processedScales image.width image.height
  { depthMap := depthMap, heightMap := generateHeightMap depthMap s }

/-! ### Data model: grayscale-to-power mapping (LaserProfileService lines 192–215) -/

/-- `options` argument of `calculatePowerForGrayscale` (lines 195–201). -/
structure GrayscaleOptions where
  contrast : ℝ
  brightness : ℝ
  gamma : ℝ
  minPower : ℝ
  maxPower : ℝ

/-- `LaserProfileService.calculatePowerForGrayscale` (lines 192–215):
gamma correction `value^(1/gamma)` (`Real.rpow`), then
`adjusted * contrast + brightness`, clamp to `[0,1]`, quantize to
`floor(adjusted * (powerCurve.length - 1))` and rescale the looked-up curve
entry into `[minPower, maxPower]`.  (For the 256-entry default curves the
index always lands in range; JS out-of-range reads would give `undefined`,
which the rational curve model does not represent.) -/
noncomputable def calculatePowerForGrayscale (profile : LaserProfile)
    (grayscaleValue : ℝ) (options : GrayscaleOptions) : ℝ :=
  let adjusted := grayscaleValue ^ (1 / options.gamma)
  let adjusted := adjusted * options.contrast + options.brightness
  let adjusted := max 0 (min 1 adjusted)
  let powerIndex :=
    (⌊adjusted * ((profile.settings.powerCurve.length : ℝ) - 1)⌋).toNat
  let powerPercentage : ℝ := ((profile.settings.powerCurve.getD powerIndex 0 : ℚ) : ℝ)
  options.minPower + (options.maxPower - options.minPower) * powerPercentage

/-- Follows the claim's words, for comparison with the source: gamma, then
contrast as `0.5 + (value-0.5)(1 + contrast/100)` and brightness as
`value + brightness/100`, clamp to `[0,1]`, quantize to
`floor(value * 255)`, rescale into `[minPower, maxPower]`. -/
noncomputable def specPowerForGrayscale (profile : LaserProfile)
    (grayscaleValue : ℝ) (options : GrayscaleOptions) : ℝ :=
  let v := grayscaleValue ^ (1 / options.gamma)
  let v := 0.5 + (v - 0.5) * (1 + options.contrast / 100)
  let v := v + options.brightness / 100
  let v := max 0 (min 1 v)
  let idx := (⌊v * 255⌋).toNat
  let powerPercentage : ℝ := ((profile.settings.powerCurve.getD idx 0 : ℚ) : ℝ)
  options.minPower + (options.maxPower - options.minPower) * powerPercentage

/-- The amended description of `calculatePowerForGrayscale`, written as the
claim's pipeline but with the contrast/brightness step the source actually
performs: a raw multiply–add `value * contrast + brightness`. -/
noncomputable def amendedPowerForGrayscale (profile : LaserProfile)
    (grayscaleValue : ℝ) (options : GrayscaleOptions) : ℝ :=
  let v := grayscaleValue ^ (1 / options.gamma)
  let v := v * options.contrast + options.brightness
  let v := max 0 (min 1 v)
  let idx := (⌊v * ((profile.settings.powerCurve.length : ℝ) - 1)⌋).toNat
  let powerPercentage : ℝ := ((profile.settings.powerCurve.getD idx 0 : ℚ) : ℝ)
  options.minPower + (options.maxPower - options.minPower) * powerPercentage

/-! ### Concrete inputs for the depth-map claims -/

/-- An 8×8 uniform white RGBA image (all four scale buffers nonempty). -/
def whiteImage8 : RasterImage := ⟨8, 8, fun _ => 255⟩

/-- Neutral depth-map settings with full detail boost
(`gamma = 1`, `contrast = brightness = 0`, `detailBoost = 100`,
linear depth curve, `maxDepth = 2`). -/
noncomputable def boostSettings : DepthMapSettings :=
  { contrast := 0
    brightness := 0
    gamma := 1
    sharpness := 0
    baseDepth := 0
    maxDepth := 2
    minDepth := 0
    depthCurve := .linear
    customCurve := none
    layers := 1
    layerBlending := 50
    layerContrast := []
    detailBoost := 100
    microDetail := 0
    edgeEnhancement := 0
    smoothing := 0
    adaptiveSmoothing := false
    preserveEdges := false
    normalStrength := 1
    aoStrength := 0
    heightBlending := 0 }

/-- `boostSettings` with the detail boost disabled. -/
noncomputable def plainSettings : DepthMapSettings :=
  { boostSettings with detailBoost := 0 }

/-- Settings selecting the custom depth curve while leaving `customCurve`
unset. -/
noncomputable def customUnsetSettings : DepthMapSettings :=
  { boostSettings with depthCurve := .custom, customCurve := none }

/-- Neutral grayscale options (`gamma = 1`, `contrast = 0`,
`brightness = 0`) mapping into `[1, 50]`. -/
noncomputable def neutralOptions : GrayscaleOptions :=
  { contrast := 0, brightness := 0, gamma := 1, minPower := 1, maxPower := 50 }

end Engrave

namespace Engrave

/-! ### Helper lemmas -/

/-- The `p`-th produced pass of `generateDeepEngraving` is `makePass settings p`. -/
theorem generateDeepEngraving_passes_get (img : RasterImage)
    (s : DeepEngravingSettings) (p : ℕ)
    (hp : p < (generateDeepEngraving img s).passes.length) :
    (generateDeepEngraving img s).passes.get ⟨p, hp⟩ = makePass s p := by
  simp [generateDeepEngraving]

/-- Length of the produced pass list. -/
theorem generateDeepEngraving_passes_length (img : RasterImage)
    (s : DeepEngravingSettings) :
    (generateDeepEngraving img s).passes.length = s.passLayers := by
  simp [generateDeepEngraving]

/-- Commanded power of pass `p` as a closed formula. -/
theorem makePass_power (s : DeepEngravingSettings) (p : ℕ) :
    (makePass s p).power
      = min (s.powerRamp.initial + s.powerRamp.increment * p) s.powerRamp.max := rfl

/-- Commanded speed of pass `p` as a closed formula. -/
theorem makePass_speed (s : DeepEngravingSettings) (p : ℕ) :
    (makePass s p).speed
      = max (s.speedProfile.initial * s.speedProfile.reduction ^ p)
          s.speedProfile.min := rfl

/-- Target depth of pass `p` as a closed formula. -/
theorem makePass_depth (s : DeepEngravingSettings) (p : ℕ) :
    (makePass s p).depth = (p + 1) * (s.maxDepth / s.passLayers) := rfl

/-! ### Claim C1 -/

/-- C1: for every `DeepEngravingSettings` with `passLayers = N ≥ 1`,
`generateDeepEngraving` produces exactly `N` passes, the pass at 0-based
index `p` has depth `(p+1) * maxDepth / passLayers` (so the final pass's
depth equals `maxDepth`); and in the spec's scenario (4×4 white image,
`maxDepth = 2.0`, `passLayers = 4`, `powerRamp = {40, 3, 95}`) the produced
passes have power `[40, 43, 46, 49]` and depth `[0.5, 1.0, 1.5, 2.0]`. -/
theorem C1_deep_engraving_pass_schedule :
    (∀ (img : RasterImage) (s : DeepEngravingSettings), 1 ≤ s.passLayers →
      (generateDeepEngraving img s).passes.length = s.passLayers ∧
      (∀ p (hp : p < (generateDeepEngraving img s).passes.length),
        ((generateDeepEngraving img s).passes.get ⟨p, hp⟩).depth
          = (p + 1) * s.maxDepth / s.passLayers) ∧
      (∀ hl : s.passLayers - 1 < (generateDeepEngraving img s).passes.length,
        ((generateDeepEngraving img s).passes.get ⟨s.passLayers - 1, hl⟩).depth
          = s.maxDepth)) ∧
    (generateDeepEngraving whiteImage4 scenarioSettings).passes.map Pass.power
        = [40, 43, 46, 49] ∧
    (generateDeepEngraving whiteImage4 scenarioSettings).passes.map Pass.depth
        = [1/2, 1, 3/2, 2] := by
  refine ⟨fun img s hs =>
    ⟨generateDeepEngraving_passes_length img s, fun p hp => ?_, fun hl => ?_⟩, ?_, ?_⟩
  · rw [generateDeepEngraving_passes_get, makePass_depth, mul_div_assoc]
  · rw [generateDeepEngraving_passes_get, makePass_depth]
    have hn : (s.passLayers : ℚ) ≠ 0 := by
      have : s.passLayers ≠ 0 := by omega
      exact_mod_cast this
    have hcast : ((s.passLayers - 1 : ℕ) : ℚ) + 1 = (s.passLayers : ℚ) := by
      have := Nat.sub_add_cancel hs
      exact_mod_cast congrArg (Nat.cast : ℕ → ℚ) this
    rw [hcast]
    field_simp
  · simp [generateDeepEngraving, makePass, scenarioSettings, List.range_succ]
    norm_num
  · simp [generateDeepEngraving, makePass, scenarioSettings, List.range_succ]
    norm_num

/-- C1, witness: the general part of `C1_deep_engraving_pass_schedule`
instantiated at the scenario settings. -/
theorem C1_deep_engraving_pass_schedule_witness :
    (generateDeepEngraving whiteImage4 scenarioSettings).passes.length
      = scenarioSettings.passLayers :=
  (C1_deep_engraving_pass_schedule.1 whiteImage4 scenarioSettings
    (by norm_num [scenarioSettings])).1

/-! ### Claim C2 -/

/-- C2, counterexample: with `powerRamp = {initial: 80, increment: 3,
max: 95}` and the Seamann 50 W profile (`maxPower = 50`), the first pass
commands power 80, which exceeds `min powerRamp.max profile.maxPower = 50`:
`generateDeepEngraving` never consults the laser profile, so the claimed
bound `power ≤ min powerRamp.max laserProfile.maxPower` is false. -/
theorem C2_power_profile_bound_counterexample :
    (generateDeepEngraving whiteImage4 hotSettings).passes.map Pass.power
        = [80, 83, 86, 89]
    ∧ min hotSettings.powerRamp.max seamann50WFiber.maxPower = 50
    ∧ ¬ ((80 : ℚ) ≤ 50) := by
  refine ⟨?_, ?_, by norm_num⟩
  · simp [generateDeepEngraving, makePass, hotSettings, List.range_succ]
    norm_num
  · simp [hotSettings, seamann50WFiber]
    norm_num

/-- C2 (amended): every pass `p` commands
`power[p] = min (powerRamp.initial + powerRamp.increment * p) powerRamp.max`
and `speed[p] = max (speedProfile.initial * speedProfile.reduction ^ p)
speedProfile.min`; the power sequence is bounded above by `powerRamp.max`
(but not by the laser profile's `maxPower`, which the service never reads),
the speed sequence is bounded below by `speedProfile.min`; for non-negative
`increment` the power sequence is non-decreasing, and for `reduction ∈ (0,1]`
and non-negative initial speed the speed sequence is non-increasing. -/
theorem C2_power_speed_ramps_amended :
    ∀ (img : RasterImage) (s : DeepEngravingSettings)
      (p q : ℕ) (hp : p < (generateDeepEngraving img s).passes.length)
      (hq : q < (generateDeepEngraving img s).passes.length),
      (((generateDeepEngraving img s).passes.get ⟨p, hp⟩).power
          = min (s.powerRamp.initial + s.powerRamp.increment * p) s.powerRamp.max
        ∧ ((generateDeepEngraving img s).passes.get ⟨p, hp⟩).speed
          = max (s.speedProfile.initial * s.speedProfile.reduction ^ p)
              s.speedProfile.min)
      ∧ ((generateDeepEngraving img s).passes.get ⟨p, hp⟩).power ≤ s.powerRamp.max
      ∧ s.speedProfile.min ≤ ((generateDeepEngraving img s).passes.get ⟨p, hp⟩).speed
      ∧ (0 ≤ s.powerRamp.increment → p ≤ q →
          ((generateDeepEngraving img s).passes.get ⟨p, hp⟩).power
            ≤ ((generateDeepEngraving img s).passes.get ⟨q, hq⟩).power)
      ∧ (0 < s.speedProfile.reduction → s.speedProfile.reduction ≤ 1 →
          0 ≤ s.speedProfile.initial → p ≤ q →
          ((generateDeepEngraving img s).passes.get ⟨q, hq⟩).speed
            ≤ ((generateDeepEngraving img s).passes.get ⟨p, hp⟩).speed) := by
  intro img s p q hp hq
  rw [generateDeepEngraving_passes_get img s p hp,
    generateDeepEngraving_passes_get img s q hq]
  refine ⟨⟨makePass_power s p, makePass_speed s p⟩, ?_, ?_, ?_, ?_⟩
  · rw [makePass_power]; exact min_le_right _ _
  · rw [makePass_speed]; exact le_max_right _ _
  · intro hinc hpq
    rw [makePass_power, makePass_power]
    refine min_le_min (add_le_add_left ?_ _) le_rfl
    exact mul_le_mul_of_nonneg_left (by exact_mod_cast hpq) hinc
  · intro hr0 hr1 hi0 hpq
    rw [makePass_speed, makePass_speed]
    refine max_le_max ?_ le_rfl
    exact mul_le_mul_of_nonneg_left (pow_le_pow_of_le_one hr0.le hr1 hpq) hi0

/-- C2 (amended), witness: power of pass 0 is at most power of pass 1 in the
scenario, obtained from `C2_power_speed_ramps_amended` at concrete inputs. -/
theorem C2_power_speed_ramps_amended_witness :
    ((generateDeepEngraving whiteImage4 scenarioSettings).passes.get
        ⟨0, by rw [generateDeepEngraving_passes_length]; norm_num [scenarioSettings]⟩).power
      ≤ ((generateDeepEngraving whiteImage4 scenarioSettings).passes.get
        ⟨1, by rw [generateDeepEngraving_passes_length]; norm_num [scenarioSettings]⟩).power := by
  have h := C2_power_speed_ramps_amended whiteImage4 scenarioSettings 0 1
    (by rw [generateDeepEngraving_passes_length]; norm_num [scenarioSettings])
    (by rw [generateDeepEngraving_passes_length]; norm_num [scenarioSettings])
  exact h.2.2.2.1 (by norm_num [scenarioSettings]) (by norm_num)

/-! ### Claim C5 -/

/-- C5, counterexample: for the 1×1 heightmap `[[1]]` with `maxPasses = 4`
and `depthPerPass = 0.5`, `generateOptimizedToolpaths` plans
`ceil(1 × 4 / 0.5) = 8` passes — more than `maxPasses`; the claimed cap does
not exist in that function. -/
theorem C5_pass_cap_counterexample :
    (generateOptimizedToolpaths heightmapOne toolpathSettings5).length = 8
    ∧ ¬ ((8 : ℚ) ≤ toolpathSettings5.maxPasses) := by
  constructor
  · simp [generateOptimizedToolpaths, flatMax, heightmapOne, toolpathSettings5]
    norm_num
    rfl
  · norm_num [toolpathSettings5]

/-- C5 (amended): `generateOptimizedToolpaths` produces exactly
`ceil(maxDepthOfMap × maxPasses / depthPerPass)` passes with *no* cap, so
the count can exceed `maxPasses`; the cap appears only in
`LaserProfileService.generatePowerMap`, which produces
`min(ceil(maxDepth / depthPerPass), passes)` passes and therefore never
exceeds its `passes` option. -/
theorem C5_pass_count_amended :
    (∀ (hm : List (List ℚ)) (s : ToolpathSettings),
      (generateOptimizedToolpaths hm s).length
        = (⌈flatMax hm * s.maxPasses / s.depthPerPass⌉).toNat) ∧
    (∀ (hm : List (List ℚ)) (profile : LaserProfile) (o : PowerMapOptions),
      (generatePowerMap hm profile o).length
        = min (⌈o.maxDepth / o.depthPerPass⌉).toNat o.passes ∧
      (generatePowerMap hm profile o).length ≤ o.passes) := by
  refine ⟨fun hm s => ?_, fun hm profile o => ⟨?_, ?_⟩⟩
  · simp [generateOptimizedToolpaths]
  · simp [generatePowerMap]
  · simp [generatePowerMap]

/-- C5 (amended), witness: `generatePowerMap` at concrete options stays
within its `passes` bound, via `C5_pass_count_amended`. -/
theorem C5_pass_count_amended_witness :
    (generatePowerMap heightmapOne seamann50WFiber
        ⟨2, 4, 100, 1/2, 1⟩).length ≤ 4 :=
  (C5_pass_count_amended.2 heightmapOne seamann50WFiber ⟨2, 4, 100, 1/2, 1⟩).2

/-! ### Claim C8 -/

/-- C8, counterexample: at `depth = 1` and `refractiveIndex = -1 ≤ 0`,
`calculateFocalAdjustment` returns the plain value 2 — it has no validation
and never fails — whereas the spec's `focusOffsetFor` demands an
`InvalidMaterial` failure there. -/
theorem C8_invalid_material_counterexample :
    calculateFocalAdjustment 1 ⟨-1, 1⟩ = 2
    ∧ specFocusOffsetFor 1 ⟨-1, 1⟩ = .error .invalidMaterial := by
  constructor
  · norm_num [calculateFocalAdjustment]
  · norm_num [specFocusOffsetFor]

/-- C8 (amended): `calculateFocalAdjustment` agrees with the spec's
`focusOffsetFor` on the whole domain where the spec succeeds
(`refractiveIndex > 0`): both return `depth × (1 - 1/refractiveIndex)`.
For `refractiveIndex ≤ 0` the source performs the same unguarded
computation instead of failing with `InvalidMaterial`. -/
theorem C8_focal_adjustment_amended :
    ∀ (depth : ℚ) (m : Material), 0 < m.refractiveIndex →
      specFocusOffsetFor depth m = .ok (calculateFocalAdjustment depth m) := by
  intro d m h
  unfold specFocusOffsetFor
  rw [if_neg (not_le.mpr h)]
  rfl

/-- C8 (amended), witness: agreement at `depth = 1`,
`refractiveIndex = 2`. -/
theorem C8_focal_adjustment_amended_witness :
    specFocusOffsetFor 1 ⟨2, 1⟩ = .ok (calculateFocalAdjustment 1 ⟨2, 1⟩) :=
  C8_focal_adjustment_amended 1 ⟨2, 1⟩ (by norm_num)

/-! ### Map laws shared by the registry claims -/

/-- `Map.get` after `Map.set` at the same key returns the new value
(last-write-wins, whatever was stored before). -/
theorem mapGet_mapSet_self {κ α : Type} [BEq κ] [LawfulBEq κ]
    (m : List (κ × α)) (k : κ) (v : α) :
    mapGet (mapSet m k v) k = some v := by
  induction m with
  | nil => simp [mapSet, mapGet]
  | cons hd tl ih =>
    obtain ⟨k', v'⟩ := hd
    simp only [mapSet]
    by_cases hk : k' = k
    · rw [if_pos (by simp [hk])]
      simp [mapGet]
    · rw [if_neg (by simp [hk])]
      simp only [mapGet]
      rw [if_neg (by simp [hk])]
      exact ih

/-- `Map.set` never disturbs entries under other keys. -/
theorem mapGet_mapSet_ne {κ α : Type} [BEq κ] [LawfulBEq κ]
    (m : List (κ × α)) (k name : κ) (v : α) (h : name ≠ k) :
    mapGet (mapSet m k v) name = mapGet m name := by
  induction m with
  | nil =>
    simp only [mapSet, mapGet]
    rw [if_neg (by simp only [beq_iff_eq]; exact Ne.symm h)]
  | cons hd tl ih =>
    obtain ⟨k', v'⟩ := hd
    simp only [mapSet]
    by_cases hk : k' = k
    · subst hk
      rw [if_pos (by simp)]
      simp only [mapGet]
      rw [if_neg (by simp only [beq_iff_eq]; exact Ne.symm h),
        if_neg (by simp only [beq_iff_eq]; exact Ne.symm h)]
    · rw [if_neg (by simp [hk])]
      simp only [mapGet]
      by_cases hn : k' = name
      · rw [if_pos (by simp [hn]), if_pos (by simp [hn])]
      · rw [if_neg (by simp [hn]), if_neg (by simp [hn])]
        exact ih

/-- `Map.get` of a key that was never stored is `undefined`. -/
theorem mapGet_eq_none_of_not_mem {κ α : Type} [BEq κ] [LawfulBEq κ]
    (m : List (κ × α)) (k : κ) (h : k ∉ m.map Prod.fst) :
    mapGet m k = none := by
  induction m with
  | nil => rfl
  | cons hd tl ih =>
    obtain ⟨k', v'⟩ := hd
    simp only [List.map_cons, List.mem_cons] at h
    push_neg at h
    simp only [mapGet]
    rw [if_neg (by simp only [beq_iff_eq]; exact Ne.symm h.1)]
    exact ih h.2

/-! ### Claim C9 -/

/-- C9: for every registry state and laser profile `p`, after
`addLaserProfile p` a `getLaserProfile p.name` returns `p` (registration
overwrites any existing entry of that name, last-write-wins), lookups of
every other name are untouched (registration never deletes), and a lookup
of a never-registered name returns `none`. -/
theorem C9_registry_register_get :
    ∀ (s : List (String × LaserProfile)) (p : LaserProfile),
      getLaserProfile p.name (addLaserProfile p s) = some p
      ∧ (∀ name, name ≠ p.name →
          getLaserProfile name (addLaserProfile p s) = getLaserProfile name s)
      ∧ (∀ name, name ∉ s.map Prod.fst → getLaserProfile name s = none) := by
  intro s p
  exact ⟨mapGet_mapSet_self s p.name p,
    fun name h => mapGet_mapSet_ne s p.name name p h,
    fun name h => mapGet_eq_none_of_not_mem s name h⟩

/-- C9, witness: registering the Seamann profile into the empty registry
leaves the lookup of an unrelated name unchanged. -/
theorem C9_registry_register_get_witness :
    getLaserProfile "other" (addLaserProfile seamann50WFiber [])
      = getLaserProfile "other" [] :=
  (C9_registry_register_get [] seamann50WFiber).2.1 "other" (by decide)

/-! ### Claim C10 -/

/-- C10: `importProfile` never throws (it is a total function into
`Bool × Registries`); when `JSON.parse` fails it returns `false` with every
registry unchanged, and for a parsed document whose `type` property is none
of `printer`, `laser`, `material` it returns `true` without touching
any registry. -/
theorem C10_import_profile_safe :
    (∀ s : Registries, importProfile none s = (false, s)) ∧
    (∀ (data : Json) (s : Registries) (t prof : Option Json),
      propAccess data "type" = some t →
      propAccess data "profile" = some prof →
      isTypeTag t "printer" = false →
      isTypeTag t "laser" = false →
      isTypeTag t "material" = false →
      importProfile (some data) s = (true, s)) := by
  refine ⟨fun s => rfl, fun data s t prof ht hp h1 h2 h3 => ?_⟩
  simp [importProfile, ht, hp, h1, h2, h3]

/-- C10, witness: importing the document `42` (valid JSON, no `type`
field) returns `true` and adds nothing. -/
theorem C10_import_profile_safe_witness :
    importProfile (some (.num 42)) emptyRegistries = (true, emptyRegistries) :=
  C10_import_profile_safe.2 (.num 42) emptyRegistries none none rfl rfl rfl rfl rfl

/-! ### Claim C7 -/

/-- The `while` scan of `interpolateCustomCurve` stops exactly at index `j`
when applied to the `j`-th control point of a strictly increasing curve. -/
theorem curveScanIdx_eq (curve : List ℝ) (h : curve.Pairwise (· < ·))
    (j : ℕ) (hj : j < curve.length) :
    curveScanIdx (curve.get ⟨j, hj⟩) curve = j := by
  induction curve generalizing j with
  | nil => simp at hj
  | cons c t ih =>
    match j with
    | 0 =>
      simp [curveScanIdx]
    | Nat.succ n =>
      have hn : n < t.length := by simpa using hj
      have hmem : t.get ⟨n, hn⟩ ∈ t := List.get_mem t n hn
      have hc : c < t.get ⟨n, hn⟩ := (List.pairwise_cons.mp h).1 _ hmem
      simp only [List.get_cons_succ]
      rw [curveScanIdx, if_pos hc, ih (List.pairwise_cons.mp h).2 n hn]

/-- C7: for every custom curve with strictly increasing control-point
values, `interpolateCustomCurve` is idempotent at control points:
`interpolate(curve, curve[i]) = curve[i]` for every index `i`. -/
theorem C7_custom_curve_idempotent :
    ∀ (curve : List ℝ), curve.Chain' (· < ·) →
      ∀ (j : ℕ) (hj : j < curve.length),
        interpolateCustomCurve (curve.get ⟨j, hj⟩) curve = curve.get ⟨j, hj⟩ := by
  intro curve hchain j hj
  have hpw : curve.Pairwise (· < ·) := List.chain'_iff_pairwise.mp hchain
  have hidx := curveScanIdx_eq curve hpw j hj
  unfold interpolateCustomCurve
  simp only [hidx]
  by_cases h0 : j = 0
  · subst h0
    rw [if_pos rfl]
    rw [List.getD_eq_getElem?_getD, List.getElem?_eq_getElem hj]
    simp [List.get_eq_getElem]
  · rw [if_neg h0, if_neg (Nat.ne_of_lt hj)]
    have hj1 : j - 1 < curve.length := lt_of_le_of_lt (Nat.sub_le j 1) hj
    have hlt : curve.get ⟨j - 1, hj1⟩ < curve.get ⟨j, hj⟩ := by
      have := List.pairwise_iff_get.mp hpw ⟨j - 1, hj1⟩ ⟨j, hj⟩ (by
        simp only [Fin.mk_lt_mk]
        omega)
      exact this
    have hc1 : curve.getD (j - 1) 0 = curve.get ⟨j - 1, hj1⟩ := by
      rw [List.getD_eq_getElem?_getD, List.getElem?_eq_getElem hj1]
      simp [List.get_eq_getElem]
    have hc2 : curve.getD j 0 = curve.get ⟨j, hj⟩ := by
      rw [List.getD_eq_getElem?_getD, List.getElem?_eq_getElem hj]
      simp [List.get_eq_getElem]
    simp only [hc1, hc2]
    have hne : curve.get ⟨j, hj⟩ - curve.get ⟨j - 1, hj1⟩ ≠ 0 :=
      sub_ne_zero.mpr hlt.ne'
    field_simp

/-- C7, witness: on the strictly increasing curve `[0, 1/2, 1]` the middle
control point is a fixed point of the interpolation. -/
theorem C7_custom_curve_idempotent_witness :
    interpolateCustomCurve ((1 : ℝ)/2) [0, 1/2, 1] = 1/2 := by
  have h := C7_custom_curve_idempotent [0, 1/2, 1]
    (by constructor <;> norm_num) 1 (by norm_num)
  simpa using h

/-! ### Claim C4 -/

/-- C4, counterexample: with `depthCurve = custom` and `customCurve` unset,
`applyDepthCurve` silently returns its input (`1/2 ↦ 1/2`, the linear
fallback) while the spec's contract demands an `InvalidInput` failure. -/
theorem C4_custom_unset_counterexample :
    applyDepthCurve (1/2) customUnsetSettings = 1/2
    ∧ specApplyDepthCurve (1/2) customUnsetSettings = .error .invalidInput := by
  constructor
  · simp [applyDepthCurve, customUnsetSettings, boostSettings]
  · simp [specApplyDepthCurve, customUnsetSettings, boostSettings]

/-- C4 (amended): when `depthCurve = custom` and `customCurve` is unset,
depth-map generation does not fail: `applyDepthCurve` silently falls back
to the linear (identity) curve, returning every input value unchanged; no
`InvalidInput` error path exists in the source. -/
theorem C4_custom_unset_fallback_amended :
    ∀ (v : ℝ) (s : DepthMapSettings),
      s.depthCurve = .custom → s.customCurve = none →
      applyDepthCurve v s = v := by
  intro v s h1 h2
  simp [applyDepthCurve, h1, h2]

/-- C4 (amended), witness: the fallback at the concrete input `1/2`. -/
theorem C4_custom_unset_fallback_amended_witness :
    applyDepthCurve (1/2) customUnsetSettings = 1/2 :=
  C4_custom_unset_fallback_amended (1/2) customUnsetSettings rfl rfl

/-! ### Claim C6 -/

/-- The default 256-entry power curve has 256 entries. -/
theorem defaultPowerCurve_length : defaultPowerCurve.length = 256 := by
  simp [defaultPowerCurve]

/-- Entry `i` of the default power curve is `i / 255`. -/
theorem defaultPowerCurve_getD (i : ℕ) (h : i < 256) :
    defaultPowerCurve.getD i 0 = (i : ℚ) / 255 := by
  rw [defaultPowerCurve, List.getD_eq_getElem?_getD, List.getElem?_map,
    List.getElem?_range h]
  rfl

/-- C6, counterexample: at grayscale 1 with `gamma = 1`, `contrast = 0`,
`brightness = 0`, `minPower = 1`, `maxPower = 50` on the Seamann profile,
the source computes `1 * 0 + 0 = 0 ↦ curve[0] = 0 ↦ power 1`, while the
claim's percentage-based contrast/brightness formulas give
`1 ↦ curve[255] = 1 ↦ power 50`. -/
theorem C6_power_formula_counterexample :
    calculatePowerForGrayscale seamann50WFiber 1 neutralOptions = 1
    ∧ specPowerForGrayscale seamann50WFiber 1 neutralOptions = 50
    ∧ (1 : ℝ) ≠ 50 := by
  have hcurve : seamann50WFiber.settings.powerCurve = defaultPowerCurve := rfl
  refine ⟨?_, ?_, by norm_num⟩
  · rw [calculatePowerForGrayscale]
    rw [Real.one_rpow]
    have h2 : (1 : ℝ) * neutralOptions.contrast + neutralOptions.brightness = 0 := by
      norm_num [neutralOptions]
    rw [h2]
    have h3 : max (0:ℝ) (min 1 0) = 0 := by norm_num
    rw [h3, hcurve, defaultPowerCurve_length]
    have h5 : (0 : ℝ) * (((256 : ℕ) : ℝ) - 1) = 0 := by norm_num
    rw [h5, Int.floor_zero, Int.toNat_zero,
      defaultPowerCurve_getD 0 (by norm_num)]
    norm_num [neutralOptions]
  · rw [specPowerForGrayscale]
    rw [Real.one_rpow]
    have h2 : (0.5 : ℝ) + (1 - 0.5) * (1 + neutralOptions.contrast / 100)
        + neutralOptions.brightness / 100 = 1 := by
      norm_num [neutralOptions]
    rw [h2]
    have h3 : max (0:ℝ) (min 1 1) = 1 := by norm_num
    rw [h3]
    have h4 : (1 : ℝ) * 255 = ((255 : ℕ) : ℝ) := by norm_num
    rw [h4, Int.floor_natCast]
    rw [Int.toNat_natCast, hcurve, defaultPowerCurve_getD 255 (by norm_num)]
    norm_num [neutralOptions]

/-- C6 (amended): `calculatePowerForGrayscale` realizes the claim's
pipeline with the contrast/brightness step replaced by the raw multiply–add
`value * contrast + brightness` (and quantization by
`floor(value * (curveLength - 1))`): gamma, multiply–add, clamp to `[0,1]`,
curve lookup, rescale into `[minPower, maxPower]`. -/
theorem C6_power_pipeline_amended :
    ∀ (profile : LaserProfile) (v : ℝ) (o : GrayscaleOptions),
      calculatePowerForGrayscale profile v o
        = amendedPowerForGrayscale profile v o :=
  fun _ _ _ => rfl

/-! ### Claim C3 -/

/-- The local-contrast S-curve ends in a two-sided clamp, so its output
always lies in `[0, 1]`. -/
theorem enhanceLocalContrast_mem (v : ℝ) (s : DepthMapSettings) :
    0 ≤ enhanceLocalContrast v s ∧ enhanceLocalContrast v s ≤ 1 := by
  unfold enhanceLocalContrast
  dsimp only
  by_cases h1 : (0.5 + (v - 0.5) * (1 + s.contrast / 100)) < 0
  · rw [if_pos h1, if_neg (by norm_num)]
    norm_num
  · rw [if_neg h1]
    by_cases h2 : (0.5 + (v - 0.5) * (1 + s.contrast / 100)) > 1
    · rw [if_pos h2]
      norm_num
    · rw [if_neg h2]
      exact ⟨not_lt.mp h1, not_lt.mp h2⟩

/-- Every per-scale pixel value is clamped into `[0, 1]` by the local
contrast step. -/
theorem processPixelAtScale_mem (g : ℕ → ℝ) (x y sc w h : ℕ)
    (s : DepthMapSettings) :
    0 ≤ processPixelAtScale g x y sc w h s
    ∧ processPixelAtScale g x y sc w h s ≤ 1 :=
  enhanceLocalContrast_mem _ _

/-- With `detailBoost = 0` the unsharp-mask step is the identity. -/
theorem enhanceDetails_of_zero_boost (data : ℕ → ℝ) (w h : ℕ)
    (s : DepthMapSettings) (hs : s.detailBoost = 0) (i : ℕ) :
    enhanceDetails data w h s i = data i := by
  unfold enhanceDetails gaussianBlur
  simp [hs]

/-- With `detailBoost = 0` every scale-buffer value lies in `[0, 1]`. -/
theorem processAtScale_mem (g : ℕ → ℝ) (w h sc : ℕ) (s : DepthMapSettings)
    (hs : s.detailBoost = 0) (i : ℕ) :
    0 ≤ processAtScale g w h sc s i ∧ processAtScale g w h sc s i ≤ 1 := by
  unfold processAtScale
  rw [enhanceDetails_of_zero_boost _ _ _ _ hs]
  exact processPixelAtScale_mem _ _ _ _ _ _ _

/-- The convex blend of buffers with values in `[0, 1]` stays in
`[0, 1]`. -/
theorem blendProcessedScales_mem (buffers : List (ℕ × (ℕ → ℝ)))
    (hb : ∀ b ∈ buffers, ∀ j, 0 ≤ b.2 j ∧ b.2 j ≤ 1) (w h i : ℕ) :
    0 ≤ blendProcessedScales buffers w h i
    ∧ blendProcessedScales buffers w h i ≤ 1 := by
  unfold blendProcessedScales
  dsimp only
  set included := buffers.filter (fun b => 0 < w / b.1 && 0 < h / b.1) with hincl
  set vals := included.map (fun b =>
    b.2 (min (i / w / b.1) (h / b.1 - 1) * (w / b.1)
      + min (i % w / b.1) (w / b.1 - 1))) with hvals
  have hv : ∀ x ∈ vals, 0 ≤ x ∧ x ≤ 1 := by
    intro x hx
    rw [hvals] at hx
    obtain ⟨b, hbmem, rfl⟩ := List.mem_map.mp hx
    exact hb b (List.mem_of_mem_filter hbmem) _
  have hsum0 : 0 ≤ vals.sum := List.sum_nonneg (fun x hx => (hv x hx).1)
  have hsum1 : vals.sum ≤ (vals.length : ℝ) := by
    have := List.sum_le_card_nsmul vals 1 (fun x hx => (hv x hx).2)
    simpa using this
  have hlen : vals.length = included.length := by rw [hvals, List.length_map]
  rcases Nat.eq_zero_or_pos included.length with h0 | hpos
  · rw [List.length_eq_zero] at h0
    rw [hvals, h0]
    simp
  · have hd : (0 : ℝ) < (included.length : ℝ) := by exact_mod_cast hpos
    constructor
    · exact div_nonneg hsum0 hd.le
    · rw [div_le_one hd]
      calc vals.sum ≤ (vals.length : ℝ) := hsum1
        _ = (included.length : ℝ) := by rw [hlen]

/-- Projection of the depth buffer out of `generateEnhancedDepthMap`. -/
theorem generateEnhancedDepthMap_depthMap (img : RasterImage)
    (s : DepthMapSettings) :
    (generateEnhancedDepthMap img s).depthMap
      = blendProcessedScales
          (scalesList.map (fun sc =>
            (sc, processAtScale (convertToEnhancedGrayscale img s)
              img.width img.height sc s)))
          img.width img.height := rfl

/-- The height buffer produced by the statement-free `generateHeightMap`
stub is identically zero. -/
theorem generateEnhancedDepthMap_heightMap (img : RasterImage)
    (s : DepthMapSettings) (i : ℕ) :
    (generateEnhancedDepthMap img s).heightMap i = 0 := rfl

/-- C3 (amended): with detail enhancement disabled (`detailBoost = 0`),
every element of the produced depth map lies in `[0, 1]`; with a positive
`detailBoost` the unclamped unsharp-mask step can push depth values above
1.  The height buffer is left at its `Float32Array` zeros by the
statement-free `generateHeightMap` stub, so every height-map element is 0
and lies in `[0, maxDepth]` whenever `maxDepth ≥ 0` — trivially, not by
scaling the depth buffer. -/
theorem C3_depth_bounds_amended :
    ∀ (img : RasterImage) (s : DepthMapSettings),
      (s.detailBoost = 0 →
        ∀ i, 0 ≤ (generateEnhancedDepthMap img s).depthMap i
          ∧ (generateEnhancedDepthMap img s).depthMap i ≤ 1) ∧
      (∀ i, (generateEnhancedDepthMap img s).heightMap i = 0) ∧
      (0 ≤ s.maxDepth → ∀ i,
        0 ≤ (generateEnhancedDepthMap img s).heightMap i
        ∧ (generateEnhancedDepthMap img s).heightMap i ≤ s.maxDepth) := by
  intro img s
  refine ⟨fun hs i => ?_, fun i => generateEnhancedDepthMap_heightMap img s i,
    fun hmd i => ?_⟩
  · rw [generateEnhancedDepthMap_depthMap]
    refine blendProcessedScales_mem _ ?_ _ _ _
    intro b hbmem j
    obtain ⟨sc, hscmem, rfl⟩ := List.mem_map.mp hbmem
    exact processAtScale_mem _ _ _ _ _ hs j
  · rw [generateEnhancedDepthMap_heightMap]
    exact ⟨le_refl 0, hmd⟩

/-- On the white image with neutral settings the grayscale stage is
constantly 1. -/
theorem gray_white (i : ℕ) :
    convertToEnhancedGrayscale whiteImage8 boostSettings i = 1 := by
  unfold convertToEnhancedGrayscale whiteImage8
  dsimp only
  have hbase : (0.299 * (((255 : ℚ) : ℝ) / 255) + 0.587 * (((255 : ℚ) : ℝ) / 255)
      + 0.114 * (((255 : ℚ) : ℝ) / 255)) = 1 := by
    norm_num
  rw [hbase, Real.one_rpow]
  unfold applyContrastBrightness
  norm_num [boostSettings]

/-- On the white image the box average, depth curve and local contrast of
pixel (0,0) evaluate to 1 at every scale dividing the image. -/
theorem processPixel_white (sc : ℕ) (h1 : 0 < sc) (h2 : sc ≤ 8) :
    processPixelAtScale (convertToEnhancedGrayscale whiteImage8 boostSettings)
      0 0 sc 8 8 boostSettings = 1 := by
  unfold processPixelAtScale
  dsimp only
  have hfilter : (Finset.range sc ×ˢ Finset.range sc).filter
      (fun p => 0 * sc + p.2 < 8 ∧ 0 * sc + p.1 < 8)
      = Finset.range sc ×ˢ Finset.range sc := by
    refine Finset.filter_true_of_mem ?_
    intro p hp
    obtain ⟨hp1, hp2⟩ := Finset.mem_product.mp hp
    rw [Finset.mem_range] at hp1 hp2
    omega
  rw [hfilter]
  have hsum : (∑ p in Finset.range sc ×ˢ Finset.range sc,
      convertToEnhancedGrayscale whiteImage8 boostSettings
        ((0 * sc + p.1) * 8 + (0 * sc + p.2))) = ((sc * sc : ℕ) : ℝ) := by
    rw [Finset.sum_congr rfl (fun p _ => gray_white _)]
    rw [Finset.sum_const, Finset.card_product, Finset.card_range]
    simp
  rw [hsum, Finset.card_product, Finset.card_range]
  have hne : ((sc * sc : ℕ) : ℝ) ≠ 0 := by
    have : 0 < sc * sc := Nat.mul_pos h1 h1
    exact_mod_cast this.ne'
  rw [div_self hne]
  have hlin : applyDepthCurve 1 boostSettings = 1 := by
    simp [applyDepthCurve, boostSettings]
  rw [hlin]
  unfold enhanceLocalContrast
  dsimp only
  have hval : (0.5 : ℝ) + (1 - 0.5) * (1 + boostSettings.contrast / 100) = 1 := by
    norm_num [boostSettings]
  rw [hval, if_neg (by norm_num), if_neg (by norm_num)]

/-- With `detailBoost = 100` the unsharp-mask step doubles the white
image's scale-buffer value at index 0 (the blur buffer stays zero because
`gaussianBlur` has an empty body). -/
theorem buffer_white (sc : ℕ) (h1 : 0 < sc) (h2 : sc ≤ 8) :
    processAtScale (convertToEnhancedGrayscale whiteImage8 boostSettings)
      8 8 sc boostSettings 0 = 2 := by
  unfold processAtScale
  unfold enhanceDetails gaussianBlur
  dsimp only
  rw [Nat.zero_mod, Nat.zero_div]
  rw [processPixel_white sc h1 h2]
  norm_num [boostSettings]

/-- C3, counterexample: on an 8×8 uniform white image with neutral settings
and `detailBoost = 100`, the produced depth map holds 2 at index 0 —
outside `[0, 1]`: the unsharp-mask step of `enhanceDetails` adds
`(original − blurred) × detailBoost/100` without clamping, and the blur
buffer stays zero because `gaussianBlur` has an empty body. -/
theorem C3_depth_bounds_counterexample :
    (generateEnhancedDepthMap whiteImage8 boostSettings).depthMap 0 = 2
    ∧ ¬ ((2 : ℝ) ≤ 1) := by
  have hdm : (generateEnhancedDepthMap whiteImage8 boostSettings).depthMap 0 = 2 := by
    rw [generateEnhancedDepthMap_depthMap]
    unfold blendProcessedScales scalesList
    dsimp only
    norm_num [show whiteImage8.width = 8 from rfl, show whiteImage8.height = 8 from rfl]
    rw [buffer_white 1 (by norm_num) (by norm_num),
      buffer_white 2 (by norm_num) (by norm_num),
      buffer_white 4 (by norm_num) (by norm_num),
      buffer_white 8 (by norm_num) (by norm_num)]
    norm_num
  exact ⟨hdm, by norm_num⟩

/-- C3 (amended), witness: depth bounds at index 0 with the detail boost
disabled, and the zero height value within `[0, maxDepth]`. -/
theorem C3_depth_bounds_amended_witness :
    (0 ≤ (generateEnhancedDepthMap whiteImage8 plainSettings).depthMap 0
      ∧ (generateEnhancedDepthMap whiteImage8 plainSettings).depthMap 0 ≤ 1)
    ∧ (0 ≤ (generateEnhancedDepthMap whiteImage8 plainSettings).heightMap 0
      ∧ (generateEnhancedDepthMap whiteImage8 plainSettings).heightMap 0
          ≤ plainSettings.maxDepth) :=
  ⟨(C3_depth_bounds_amended whiteImage8 plainSettings).1 rfl 0,
    (C3_depth_bounds_amended whiteImage8 plainSettings).2.2 (by norm_num [plainSettings, boostSettings]) 0⟩

end Engrave
